import Mathlib

/-!
# Verification of the express-sequelize-api authentication core

Shallow embedding of the authentication/session code of the repository
(`src/controllers/auth.controller.js`, `src/controllers/user.controller.js`,
`src/controllers/role.controller.js`, `src/middlewares/verifyToken.js`,
`src/middlewares/roleAuthorization.js`, the Sequelize models) together with
theorems about the behaviour the specification describes.

Library semantics modelled here:
* `jsonwebtoken`: `jwt.sign` produces a token determined by its payload,
  algorithm, key and expiry; `jwt.verify` checks the permitted algorithm
  list, the signature (an RS256 signature verifies only against the public
  half of the signing RSA pair, an HMAC signature only against the same
  secret string) and expiry.  When the verification key is a secret string
  the library permits only HMAC algorithms.
* `bcrypt`: `hash` is salted and `compare` succeeds exactly on the original
  plaintext.
* `sequelize`: `findOne`/`findByPk` return the first matching row; a
  `where` clause containing an `undefined` value raises an error; the
  unique constraint on `Session.token` makes a duplicate insert fail.
-/

/-- JWT signature algorithms used by the repository. -/
inductive Alg
  | RS256
  | HS256
deriving DecidableEq, Repr

/-- Signing/verification key material: the two halves of an RSA key pair
(identified by a pair id) or a symmetric secret string. -/
inductive Key
  | rsaPrivate (pair : Nat)
  | rsaPublic (pair : Nat)
  | hmacSecret (s : String)
deriving DecidableEq, Repr

/-- Decoded JWT payload claims; the code only ever uses the fields
`id`, `username`, `email` and `verified`, each of which may be absent. -/
structure Claims where
  id : Option Nat
  username : Option String
  email : Option String
  verified : Option Bool
deriving DecidableEq, Repr

/-- A signed token.  Two tokens are the same string exactly when payload,
algorithm, signing key and time data coincide. -/
structure Token where
  claims : Claims
  alg : Alg
  signedWith : Key
  iat : Nat
  expSec : Nat
deriving DecidableEq, Repr

/-- `jwt.sign(payload, key, {algorithm, expiresIn})`. -/
def jwtSign (c : Claims) (alg : Alg) (key : Key) (iat expSec : Nat) : Token :=
  ⟨c, alg, key, iat, expSec⟩

inductive JwtError
  | invalidAlgorithm
  | invalidSignature
  | tokenExpired
deriving DecidableEq, Repr

/-- Whether a signature produced with the first key verifies against the
second: RS256 private/public halves of the same pair, or the identical
HMAC secret. -/
def verifiesWith : Key → Key → Bool
  | Key.rsaPrivate k, Key.rsaPublic j => k == j
  | Key.hmacSecret s, Key.hmacSecret t => s == t
  | _, _ => false

/-- `jwt.verify(token, key, {algorithms})` at time `now`. -/
def jwtVerify (t : Token) (key : Key) (algs : List Alg) (now : Nat) :
    Except JwtError Claims :=
  if !(algs.contains t.alg) then Except.error JwtError.invalidAlgorithm
  else if !(verifiesWith t.signedWith key) then Except.error JwtError.invalidSignature
  else if t.iat + t.expSec ≤ now then Except.error JwtError.tokenExpired
  else Except.ok t.claims

/-- A bcrypt digest: salted hash of a plaintext. -/
structure Digest where
  plain : String
  salt : Nat
deriving DecidableEq, Repr

/-- `bcrypt.hash(plaintext, rounds)` with the salt drawn for this call. -/
def bcryptHash (plaintext : String) (salt : Nat) : Digest :=
  ⟨plaintext, salt⟩

/-- `bcrypt.compare(plaintext, digest)`. -/
def bcryptCompare (plaintext : String) (d : Digest) : Bool :=
  plaintext == d.plain

/-- JavaScript truthiness of a possibly-absent string (`undefined`, `null`
and `""` are falsy). -/
def truthyStr : Option String → Bool
  | none => false
  | some s => !s.isEmpty

/-- JavaScript truthiness of a possibly-absent number (`undefined`, `null`
and `0` are falsy). -/
def truthyNat : Option Nat → Bool
  | none => false
  | some n => n != 0

/-- Row of the `Users` table (`src/models/user.model.js`). -/
structure User where
  id : Nat
  username : String
  email : String
  password : Digest
  name : Option String
  phoneNumber : Option String
  emailVerified : Bool
  acceptedTerms : Bool
deriving DecidableEq, Repr

/-- Row of the `Session` table (`src/models/session.model.js`); the
`token` column carries a unique constraint. -/
structure Session where
  token : Token
  flag : Bool
  userId : Nat
deriving DecidableEq, Repr

/-- Row of the `Roles` table. -/
structure Role where
  id : Nat
  roleName : String
deriving DecidableEq, Repr

/-- Row of the `UserRoles` join table. -/
structure UserRole where
  userId : Nat
  roleId : Nat
deriving DecidableEq, Repr

/-- The role names joined onto a user by `include: [db.role]`:
`user.Roles.map(val => val.roleName)`. -/
def userRolesOf (asg : List UserRole) (roles : List Role) (uid : Nat) :
    List String :=
  (asg.filter (fun a => a.userId == uid)).filterMap
    (fun a => (roles.find? (fun r => r.id == a.roleId)).map Role.roleName)

/-- Profile data serialised in responses: `user.toJSON()` with the
`password` key destructured away (`const { password, ...userData }`). -/
structure UserData where
  id : Nat
  username : String
  email : String
  name : Option String
  phoneNumber : Option String
  emailVerified : Bool
  acceptedTerms : Bool
deriving DecidableEq, Repr

/-- Drop the password from a user row. -/
def userDataOf (u : User) : UserData :=
  ⟨u.id, u.username, u.email, u.name, u.phoneNumber, u.emailVerified,
   u.acceptedTerms⟩

/-- Response bodies the modelled handlers produce. -/
inductive Body
  | empty
  | msg (message : String)
  | token (t : Token)
  | user (d : UserData)
  | roleList (roles : List String)
deriving DecidableEq, Repr

/-- An HTTP response: status code and JSON body. -/
structure Response where
  status : Nat
  body : Body
deriving DecidableEq, Repr

/-- `findOne({ where: {id, email} })` as issued by `verification`: an
`undefined` value in the `where` clause makes Sequelize raise. -/
def findUserByIdEmail (users : List User) (id : Option Nat)
    (email : Option String) : Except String (Option User) :=
  match id, email with
  | some i, some e =>
      Except.ok (users.find? (fun u => u.id == i && u.email == e))
  | _, _ => Except.error "WHERE parameter has invalid undefined value"

/-- `findOne({ where: {id, username} })` as issued by `resetPassword`: an
`undefined` value in the `where` clause makes Sequelize raise. -/
def findUserByIdUsername (users : List User) (id : Option Nat)
    (username : Option String) : Except String (Option User) :=
  match id, username with
  | some i, some n =>
      Except.ok (users.find? (fun u => u.id == i && u.username == n))
  | _, _ => Except.error "WHERE parameter has invalid undefined value"

/-- Body of a POST /login request. -/
structure LoginReq where
  username : Option String
  email : Option String
  password : Option String
deriving DecidableEq, Repr

/-- `exports.login` (src/controllers/auth.controller.js:31-71): requires
`username` and `password`, looks the user up by username, compares the
password, then signs an RS256 session token with the private key
(`expiresIn: '1h'`) and persists the session record.  When the session
table already holds a row for the exact token string — reachable by a
same-second re-login, since `jwt.sign` is deterministic in payload, key
and issue time — the unique constraint on `Session.token` makes
`db.session.create` throw, and the catch block answers 500 "Server
error" with no row stored.  Returns the response together with the
session table after the call. -/
def login (users : List User) (sessions : List Session) (kp : Nat)
    (now : Nat) (req : LoginReq) : Response × List Session :=
  if truthyStr req.username && truthyStr req.password then
    match users.find? (fun u => u.username == req.username.getD "") with
    | none => (⟨401, Body.msg "Invalid username or password"⟩, sessions)
    | some user =>
        if bcryptCompare (req.password.getD "") user.password then
          let token := jwtSign
            ⟨some user.id, some user.username, none, some user.emailVerified⟩
            Alg.RS256 (Key.rsaPrivate kp) now 3600
          if sessions.any (fun s => s.token == token) then
            (⟨500, Body.msg "Server error"⟩, sessions)
          else
            (⟨200, Body.token token⟩, sessions ++ [⟨token, false, user.id⟩])
        else (⟨401, Body.msg "Invalid username or password"⟩, sessions)
  else (⟨400, Body.msg "Username and password are required"⟩, sessions)

/-- The email-verification action token signed by `signup` and
`resendVerificationEmail`: `jwt.sign({id, email}, jwt_config.secret,
{expiresIn: '1h'})` — HMAC secret, payload {id, email}. -/
def signupVerificationToken (secret : String) (uid : Nat) (email : String)
    (iat : Nat) : Token :=
  jwtSign ⟨some uid, none, some email, none⟩ Alg.HS256
    (Key.hmacSecret secret) iat 3600

/-- The password-reset action token signed by `forgotPassword`:
`jwt.sign({id, username}, jwt_config.secret, {expiresIn: '1h'})`. -/
def forgotPasswordToken (secret : String) (uid : Nat) (username : String)
    (iat : Nat) : Token :=
  jwtSign ⟨some uid, some username, none, none⟩ Alg.HS256
    (Key.hmacSecret secret) iat 3600

/-- `exports.verification` (src/controllers/auth.controller.js:166-187):
verifies the action token against the symmetric secret (the string key
restricts the permitted algorithms to HMAC), looks the user up by decoded
id+email, sets `emailVerified` and saves.  Any raised error (bad token or
a Sequelize error from an undefined `where` value) lands in the catch
block. -/
def verification (users : List User) (secret : String) (now : Nat)
    (token : Token) : List User × Response :=
  match jwtVerify token (Key.hmacSecret secret) [Alg.HS256] now with
  | Except.error _ =>
      (users, ⟨400, Body.msg "Invalid or expired verification link"⟩)
  | Except.ok decoded =>
      match findUserByIdEmail users decoded.id decoded.email with
      | Except.error _ =>
          (users, ⟨400, Body.msg "Invalid or expired verification link"⟩)
      | Except.ok none =>
          (users, ⟨400, Body.msg "Invalid verification link"⟩)
      | Except.ok (some user) =>
          (users.map (fun u =>
              if u.id == user.id then { u with emailVerified := true } else u),
           ⟨200, Body.msg "User verified successfully"⟩)

/-- `exports.resetPassword` (src/controllers/auth.controller.js:239-258):
verifies the action token against the symmetric secret, looks the user up
by decoded id+username, hashes the new password and saves.  Any raised
error lands in the catch block with the same message as a missing user. -/
def resetPassword (users : List User) (secret : String) (now : Nat)
    (token : Token) (newPassword : String) (salt : Nat) :
    List User × Response :=
  match jwtVerify token (Key.hmacSecret secret) [Alg.HS256] now with
  | Except.error _ => (users, ⟨400, Body.msg "Invalid or expired token"⟩)
  | Except.ok decoded =>
      match findUserByIdUsername users decoded.id decoded.username with
      | Except.error _ => (users, ⟨400, Body.msg "Invalid or expired token"⟩)
      | Except.ok none => (users, ⟨400, Body.msg "Invalid or expired token"⟩)
      | Except.ok (some user) =>
          (users.map (fun u =>
              if u.id == user.id
              then { u with password := bcryptHash newPassword salt } else u),
           ⟨200, Body.msg "Password reset successfully"⟩)

/-- `db.session.update({flag: true}, {where: {token, userId}})` as issued
by `logout`. -/
def revokeSessions (sessions : List Session) (token : Token) (uid : Nat) :
    List Session :=
  sessions.map (fun s =>
    if s.token == token && s.userId == uid then { s with flag := true } else s)

/-- `exports.logout` (src/controllers/auth.controller.js:268-277). -/
def logout (sessions : List Session) (uid : Nat) (token : Token) :
    List Session × Response :=
  (revokeSessions sessions token uid, ⟨200, Body.msg "Logged out successfully"⟩)

/-- User context attached to the request by `verifyToken`. -/
structure ReqUser where
  id : Nat
  username : String
  verified : Bool
  role : Option (List String)
deriving DecidableEq, Repr

/-- Outcome of a middleware: an error response, or `next()` with the
attached user context. -/
inductive MwResult
  | reject (r : Response)
  | next (ctx : ReqUser)
deriving DecidableEq, Repr

/-- `verifyToken` (src/middlewares/verifyToken.js): bearer extraction,
RS256 verification against the public key, required-claim check, session
blacklist lookup, user load with joined roles, context attach. -/
def verifyToken (users : List User) (sessions : List Session)
    (asg : List UserRole) (roles : List Role) (kp : Nat) (now : Nat)
    (bearer : Option Token) : MwResult :=
  match bearer with
  | none => MwResult.reject ⟨401, Body.msg "No token provided"⟩
  | some token =>
      match jwtVerify token (Key.rsaPublic kp) [Alg.RS256] now with
      | Except.error _ => MwResult.reject ⟨401, Body.msg "Invalid token"⟩
      | Except.ok decoded =>
          if !(truthyNat decoded.id) || !(truthyStr decoded.username) then
            MwResult.reject
              ⟨401, Body.msg "Token is missing required user information"⟩
          else
            match sessions.find? (fun s => s.token == token) with
            | none => MwResult.reject ⟨401, Body.msg "Token is blacklisted"⟩
            | some record =>
                if record.flag then
                  MwResult.reject ⟨401, Body.msg "Token is blacklisted"⟩
                else
                  match users.find? (fun u =>
                      u.id == decoded.id.getD 0 &&
                      u.username == decoded.username.getD "") with
                  | none => MwResult.reject ⟨401, Body.msg "User not found"⟩
                  | some user =>
                      MwResult.next
                        ⟨user.id, user.username, user.emailVerified,
                         some (userRolesOf asg roles user.id)⟩

/-- `roleAuthorization(allowedRoles)`
(src/middlewares/roleAuthorization.js): 403 "Access denied" when the
request carries no user context or no role field; 403 "Forbidden:
Insufficient permissions" when no allowed role is among the user's roles
(`allowedRoles.some(r => req.user.role.includes(r))`); otherwise `next()`.
The context it passes through is irrelevant, so the outcome is a plain
response-or-pass value. -/
inductive AuthzResult
  | reject (r : Response)
  | next
deriving DecidableEq, Repr

def roleAuthorization (allowedRoles : List String)
    (user : Option ReqUser) : AuthzResult :=
  match user with
  | none => AuthzResult.reject ⟨403, Body.msg "Access denied"⟩
  | some ctx =>
      match ctx.role with
      | none => AuthzResult.reject ⟨403, Body.msg "Access denied"⟩
      | some rs =>
          if allowedRoles.any (fun r => rs.contains r) then AuthzResult.next
          else
            AuthzResult.reject
              ⟨403, Body.msg "Forbidden: Insufficient permissions"⟩

/-- `exports.getUser` (src/controllers/user.controller.js):
`findByPk(req.user.id)`, then the profile without the password. -/
def getUser (users : List User) (uid : Nat) : Response :=
  match users.find? (fun u => u.id == uid) with
  | none => ⟨404, Body.msg "User not found"⟩
  | some user => ⟨200, Body.user (userDataOf user)⟩

/-- Body of a PUT /user request. -/
structure UpdateReq where
  username : Option String
  email : Option String
  name : Option String
  phoneNumber : Option String
deriving DecidableEq, Repr

/-- JavaScript `v || d` on a request field updating a required column. -/
def jsOrStr (v : Option String) (d : String) : String :=
  match v with
  | some s => if s.isEmpty then d else s
  | none => d

/-- JavaScript `v || d` on a request field updating a nullable column. -/
def jsOrOpt (v : Option String) (d : Option String) : Option String :=
  match v with
  | some s => if s.isEmpty then d else some s
  | none => d

/-- The field updates performed by `updateUser` before `user.save()`;
a supplied email also resets `emailVerified`. -/
def applyUpdate (req : UpdateReq) (user : User) : User :=
  { user with
    username := jsOrStr req.username user.username
    email := jsOrStr req.email user.email
    name := jsOrOpt req.name user.name
    phoneNumber := jsOrOpt req.phoneNumber user.phoneNumber
    emailVerified :=
      if truthyStr req.email then false else user.emailVerified }

/-- `exports.updateUser` (src/controllers/user.controller.js). -/
def updateUser (users : List User) (uid : Nat) (req : UpdateReq) :
    List User × Response :=
  match users.find? (fun u => u.id == uid) with
  | none => (users, ⟨404, Body.msg "User not found"⟩)
  | some user =>
      let user' := applyUpdate req user
      (users.map (fun u => if u.id == user.id then user' else u),
       ⟨200, Body.user (userDataOf user')⟩)

/-- `exports.getUserRoles` (src/controllers/role.controller.js:487-499):
`findByPk(userId, {include: [db.role]})`; a missing user yields 401. -/
def getUserRoles (users : List User) (asg : List UserRole)
    (roles : List Role) (uid : Nat) : Response :=
  match users.find? (fun u => u.id == uid) with
  | none => ⟨401, Body.msg "User not found"⟩
  | some user => ⟨200, Body.roleList (userRolesOf asg roles user.id)⟩

/-- Session-store mutations the repository performs: `db.session.create`
at login (rejected by the unique constraint when the token string already
has a row) and the `logout` update. -/
inductive SessionOp
  | create (t : Token) (uid : Nat)
  | revoke (t : Token) (uid : Nat)
deriving DecidableEq, Repr

def applyOp (sessions : List Session) : SessionOp → List Session
  | SessionOp.create t uid =>
      if sessions.any (fun s => s.token == t) then sessions
      else sessions ++ [⟨t, false, uid⟩]
  | SessionOp.revoke t uid => revokeSessions sessions t uid

def applyOps (sessions : List Session) : List SessionOp → List Session
  | [] => sessions
  | op :: ops => applyOps (applyOp sessions op) ops

/-- Sample stored identity used to instantiate the theorems. -/
def aliceUser : User :=
  ⟨1, "alice", "alice@x.com", bcryptHash "secret1" 0, none, none, false, true⟩

/-- The session token `login` issues for `aliceUser` at time 0 with key
pair 0. -/
def aliceToken : Token :=
  jwtSign ⟨some 1, some "alice", none, some false⟩ Alg.RS256
    (Key.rsaPrivate 0) 0 3600

/-- A helper for locating a row under a uniqueness assumption: `find?`
returns the unique matching element. -/
theorem find?_eq_of_unique {α : Type} (p : α → Bool) (l : List α) (a : α)
    (hmem : a ∈ l) (hpa : p a = true)
    (huniq : ∀ b ∈ l, p b = true → b = a) : l.find? p = some a := by
  induction l with
  | nil => cases hmem
  | cons x xs ih =>
      by_cases hx : p x = true
      · have hxa : x = a := huniq x (List.mem_cons_self x xs) hx
        subst hxa
        simp [List.find?, hx]
      · have hxa : x ≠ a := fun h => hx (h ▸ hpa)
        have hmem2 : a ∈ xs := by
          rcases List.mem_cons.mp hmem with h | h
          · exact absurd h.symm hxa
          · exact h
        have := ih hmem2 (fun b hb hpb => huniq b (List.mem_cons_of_mem x hb) hpb)
        simp [List.find?, hx, this]

/-- C5: a bearer token whose signature verifies against the public key and
which is unexpired, but whose decoded claims lack the id or the username,
is rejected by the Access Middleware with 401 and the "missing required
user information" message, regardless of the session store and user table
(they are never consulted). -/
theorem malformed_claims_rejected_before_stores (kp now : Nat) (t : Token)
    (hsig : jwtVerify t (Key.rsaPublic kp) [Alg.RS256] now = Except.ok t.claims)
    (hmiss : truthyNat t.claims.id = false ∨ truthyStr t.claims.username = false) :
    ∀ (users : List User) (sessions : List Session) (asg : List UserRole)
      (roles : List Role),
      verifyToken users sessions asg roles kp now (some t) =
        MwResult.reject ⟨401, Body.msg "Token is missing required user information"⟩ := by
  intro users sessions asg roles
  rcases hmiss with h | h <;> simp [verifyToken, hsig, h]

/-- Witness for C5 at a concrete RS256 token lacking the username claim. -/
theorem malformed_claims_rejected_before_stores_witness :
    verifyToken [] [] [] [] 0 0
        (some (jwtSign ⟨some 1, none, none, none⟩ Alg.RS256 (Key.rsaPrivate 0) 0 3600)) =
      MwResult.reject ⟨401, Body.msg "Token is missing required user information"⟩ :=
  malformed_claims_rejected_before_stores 0 0
    (jwtSign ⟨some 1, none, none, none⟩ Alg.RS256 (Key.rsaPrivate 0) 0 3600)
    rfl (Or.inr rfl) [] [] [] []

/-- C6: `roleAuthorization(allowedRoles)` rejects a request without user
context or without a role field with 403 "Access denied", rejects an
empty intersection with the distinct insufficient-permissions message,
never produces any status other than 403 on rejection (in particular
never 401), and passes control on a non-empty intersection. -/
theorem roleAuthorization_contract (allowedRoles : List String)
    (user : Option ReqUser) :
    ((user = none ∨ ∃ ctx, user = some ctx ∧ ctx.role = none) →
       roleAuthorization allowedRoles user =
         AuthzResult.reject ⟨403, Body.msg "Access denied"⟩)
  ∧ (∀ ctx rs, user = some ctx → ctx.role = some rs →
       allowedRoles.any (fun r => rs.contains r) = false →
       roleAuthorization allowedRoles user =
         AuthzResult.reject ⟨403, Body.msg "Forbidden: Insufficient permissions"⟩)
  ∧ (∀ r, roleAuthorization allowedRoles user = AuthzResult.reject r →
       r.status = 403)
  ∧ (∀ ctx rs, user = some ctx → ctx.role = some rs →
       allowedRoles.any (fun r => rs.contains r) = true →
       roleAuthorization allowedRoles user = AuthzResult.next) := by
  have hroles : ∀ (cid : Nat) (cun : String) (cver : Bool) (rs : List String),
      roleAuthorization allowedRoles (some ⟨cid, cun, cver, some rs⟩) =
        if allowedRoles.any (fun r => rs.contains r) then AuthzResult.next
        else AuthzResult.reject
          ⟨403, Body.msg "Forbidden: Insufficient permissions"⟩ :=
    fun _ _ _ _ => rfl
  refine ⟨?_, ?_, ?_, ?_⟩
  · rintro (rfl | ⟨⟨cid, cun, cver, crole⟩, rfl, hrole⟩)
    · rfl
    · cases hrole
      rfl
  · rintro ⟨cid, cun, cver, crole⟩ rs rfl hrole hempty
    cases hrole
    rw [hroles, hempty]
    rfl
  · intro r h
    rcases user with _ | ⟨cid, cun, cver, crole⟩
    · injection h with h1
      rw [← h1]
    · rcases crole with _ | rs
      · injection h with h1
        rw [← h1]
      · rw [hroles] at h
        by_cases hany : (allowedRoles.any fun x => rs.contains x) = true
        · rw [if_pos hany] at h
          cases h
        · rw [if_neg hany] at h
          injection h with h1
          rw [← h1]
  · rintro ⟨cid, cun, cver, crole⟩ rs rfl hrole hfound
    cases hrole
    rw [hroles, hfound]
    rfl

/-- Witness for C6: the three behaviours at concrete role sets. -/
theorem roleAuthorization_contract_witness :
    roleAuthorization ["admin"] none =
        AuthzResult.reject ⟨403, Body.msg "Access denied"⟩
  ∧ roleAuthorization ["admin"] (some ⟨1, "alice", false, some ["user"]⟩) =
        AuthzResult.reject ⟨403, Body.msg "Forbidden: Insufficient permissions"⟩
  ∧ roleAuthorization ["admin"] (some ⟨2, "root", false, some ["admin"]⟩) =
        AuthzResult.next :=
  ⟨(roleAuthorization_contract ["admin"] none).1 (Or.inl rfl),
   (roleAuthorization_contract ["admin"] (some ⟨1, "alice", false, some ["user"]⟩)).2.1
     ⟨1, "alice", false, some ["user"]⟩ ["user"] rfl rfl (by decide),
   (roleAuthorization_contract ["admin"] (some ⟨2, "root", false, some ["admin"]⟩)).2.2.2
     ⟨2, "root", false, some ["admin"]⟩ ["admin"] rfl rfl (by decide)⟩

/-- C7 counterexample: a login request carrying the stored identity's
email and correct password but no username is answered 400, not 200. -/
theorem login_email_only_rejected_counterexample :
    (login [aliceUser] [] 0 0 ⟨none, some "alice@x.com", some "secret1"⟩).1 =
        ⟨400, Body.msg "Username and password are required"⟩
  ∧ (login [aliceUser] [] 0 0 ⟨none, some "alice@x.com", some "secret1"⟩).1.status ≠ 200 :=
  ⟨rfl, by decide⟩

/-- C7 amended: POST /login accepts only the username as identifier; a
request without a username field is rejected with 400 "Username and
password are required" and no session is created, whatever email it
carries. -/
theorem login_requires_username (users : List User) (sessions : List Session)
    (kp now : Nat) (req : LoginReq) (h : req.username = none) :
    login users sessions kp now req =
      (⟨400, Body.msg "Username and password are required"⟩, sessions) := by
  simp [login, h, truthyStr]

/-- Witness for the amended C7. -/
theorem login_requires_username_witness :
    login [aliceUser] [] 0 0 ⟨none, some "alice@x.com", some "secret1"⟩ =
      (⟨400, Body.msg "Username and password are required"⟩, []) :=
  login_requires_username [aliceUser] [] 0 0
    ⟨none, some "alice@x.com", some "secret1"⟩ rfl

/-- C8 counterexample: requesting the roles of an absent identity yields
401 "User not found", not the 404 of the NotFound taxonomy entry. -/
theorem getUserRoles_absent_user_counterexample :
    getUserRoles [] [] [] 5 = ⟨401, Body.msg "User not found"⟩
  ∧ (getUserRoles [] [] [] 5).status ≠ 404 :=
  ⟨rfl, by decide⟩

/-- C8 amended: an existing identity with zero assigned roles yields a
200 success carrying the empty sequence; an absent identity yields 401
"User not found" (not 404). -/
theorem getUserRoles_contract (users : List User) (asg : List UserRole)
    (roles : List Role) (uid : Nat) :
    (users.find? (fun u => u.id == uid) = none →
       getUserRoles users asg roles uid = ⟨401, Body.msg "User not found"⟩)
  ∧ (∀ u, users.find? (fun u => u.id == uid) = some u →
       (∀ a ∈ asg, ¬ a.userId = u.id) →
       getUserRoles users asg roles uid = ⟨200, Body.roleList []⟩) := by
  constructor
  · intro h
    simp [getUserRoles, h]
  · intro u hfind hnone
    have hfilter : asg.filter (fun a => a.userId == u.id) = [] := by
      rw [List.filter_eq_nil_iff]
      intro a ha
      simpa using hnone a ha
    simp [getUserRoles, hfind, userRolesOf, hfilter]

/-- Witness for the amended C8: a user with no role assignments. -/
theorem getUserRoles_contract_witness :
    getUserRoles [] [] [] 5 = ⟨401, Body.msg "User not found"⟩
  ∧ getUserRoles [aliceUser] [] [⟨1, "user"⟩] 1 = ⟨200, Body.roleList []⟩ :=
  ⟨(getUserRoles_contract [] [] [] 5).1 rfl,
   (getUserRoles_contract [aliceUser] [] [⟨1, "user"⟩] 1).2 aliceUser rfl
     (by intro a ha; cases ha)⟩

/-- C10: the stored password hash never influences profile responses.
Replacing every stored password (by an arbitrary function of the row)
leaves the GET /user response and the PUT /user response unchanged; in
particular two identities differing only in their password hash produce
identical response bodies, and no password field occurs in them. -/
theorem profile_responses_password_independent (users : List User)
    (f : User → Digest) (uid : Nat) (req : UpdateReq) :
    getUser (users.map (fun u => { u with password := f u })) uid =
        getUser users uid
  ∧ (updateUser (users.map (fun u => { u with password := f u })) uid req).2 =
        (updateUser users uid req).2 := by
  have hfind : (users.map (fun u => { u with password := f u })).find?
      (fun u => u.id == uid) =
      (users.find? (fun u => u.id == uid)).map (fun u => { u with password := f u }) := by
    rw [List.find?_map]
    rfl
  constructor
  · unfold getUser
    rw [hfind]
    rcases h : users.find? (fun u => u.id == uid) with _ | u <;> rw [h] <;>
      simp [userDataOf]
  · unfold updateUser
    rw [hfind]
    rcases h : users.find? (fun u => u.id == uid) with _ | u <;> rw [h] <;>
      simp [applyUpdate, userDataOf, jsOrStr, jsOrOpt]

/-- C3: under a failing credential check — the username is unknown or the
supplied password does not match the stored hash — login leaves the
session store untouched and (when both fields were supplied) answers 401;
conversely any login call that changes the session store did find a user
for the supplied username whose stored hash matches the password. -/
theorem failed_login_creates_no_session (users : List User)
    (sessions : List Session) (kp now : Nat) (req : LoginReq)
    (hfail : ∀ u ∈ users, u.username = req.username.getD "" →
      bcryptCompare (req.password.getD "") u.password = false) :
    ((login users sessions kp now req).2 = sessions
      ∧ (truthyStr req.username = true → truthyStr req.password = true →
          (login users sessions kp now req).1.status = 401))
  ∧ ∀ req2 : LoginReq, (login users sessions kp now req2).2 ≠ sessions →
      ∃ u ∈ users, u.username = req2.username.getD "" ∧
        bcryptCompare (req2.password.getD "") u.password = true := by
  constructor
  · unfold login
    by_cases htru : (truthyStr req.username && truthyStr req.password) = true
    · rw [if_pos htru]
      rcases hfind : users.find? (fun u => u.username == req.username.getD "")
        with _ | u
      · rw [hfind]
        exact ⟨rfl, fun _ _ => rfl⟩
      · have hu : u.username = req.username.getD "" := by
          have := List.find?_some hfind
          simpa using this
        have hmem : u ∈ users := List.mem_of_find?_eq_some hfind
        rw [hfind]
        dsimp only
        rw [if_neg (by rw [hfail u hmem hu]; simp)]
        exact ⟨rfl, fun _ _ => rfl⟩
    · rw [if_neg htru]
      constructor
      · rfl
      · intro h1 h2
        exact absurd (by rw [h1, h2]; rfl) htru
  · intro req2 hchanged
    unfold login at hchanged
    by_cases htru : (truthyStr req2.username && truthyStr req2.password) = true
    · rw [if_pos htru] at hchanged
      rcases hfind : users.find? (fun u => u.username == req2.username.getD "")
        with _ | u <;> rw [hfind] at hchanged
      · exact absurd rfl hchanged
      · by_cases hcmp : bcryptCompare (req2.password.getD "") u.password = true
        · refine ⟨u, List.mem_of_find?_eq_some hfind, ?_, hcmp⟩
          have := List.find?_some hfind
          simpa using this
        · dsimp only at hchanged
          rw [if_neg hcmp] at hchanged
          exact absurd rfl hchanged
    · rw [if_neg htru] at hchanged
      exact absurd rfl hchanged

/-- Witness for C3: a wrong password for the stored identity. -/
theorem failed_login_creates_no_session_witness :
    (login [aliceUser] [] 0 0 ⟨some "alice", none, some "wrong"⟩).2 = []
  ∧ (login [aliceUser] [] 0 0 ⟨some "alice", none, some "wrong"⟩).1.status = 401 :=
  ⟨((failed_login_creates_no_session [aliceUser] [] 0 0
      ⟨some "alice", none, some "wrong"⟩ (by decide)).1).1,
   ((failed_login_creates_no_session [aliceUser] [] 0 0
      ⟨some "alice", none, some "wrong"⟩ (by decide)).1).2 rfl rfl⟩

/-- C4 counterexample: when the session store already holds a row for
the exact token string login is about to issue (a same-second re-login),
a request with the stored identity's username and correct password is
answered 500 "Server error" with no row stored — not 200 with a token. -/
theorem login_duplicate_token_counterexample :
    (login [aliceUser] [⟨aliceToken, false, 1⟩] 0 0
        ⟨some "alice", none, some "secret1"⟩).1 = ⟨500, Body.msg "Server error"⟩
  ∧ (login [aliceUser] [⟨aliceToken, false, 1⟩] 0 0
        ⟨some "alice", none, some "secret1"⟩).1.status ≠ 200
  ∧ (login [aliceUser] [⟨aliceToken, false, 1⟩] 0 0
        ⟨some "alice", none, some "secret1"⟩).2 = [⟨aliceToken, false, 1⟩] :=
  ⟨rfl, by decide, rfl⟩

/-- C4 amended: for a stored identity and a login request carrying its
username and the correct password, provided the token string to be
issued has no session row yet, login answers 200 with an RS256 token
signed by the private key, expiring in 3600 seconds, whose payload holds
exactly the identity's id, username and email-verified flag (no other
claim), and a session record for the token is persisted; the
session-token verifier decodes it back to exactly those claims.  When a
row for that token string already exists, the unique constraint fires
and login answers 500 "Server error" with the store unchanged. -/
theorem login_success_token_contract (users : List User)
    (sessions : List Session) (kp now : Nat) (user : User) (password : String)
    (hmem : user ∈ users)
    (huniq : ∀ v ∈ users, v.username = user.username → v = user)
    (hne : user.username ≠ "") (hpne : password ≠ "")
    (hpw : bcryptCompare password user.password = true)
    (hfresh : sessions.any (fun s => s.token == jwtSign
        ⟨some user.id, some user.username, none, some user.emailVerified⟩
        Alg.RS256 (Key.rsaPrivate kp) now 3600) = false) :
    login users sessions kp now ⟨some user.username, none, some password⟩ =
      (⟨200, Body.token (jwtSign
          ⟨some user.id, some user.username, none, some user.emailVerified⟩
          Alg.RS256 (Key.rsaPrivate kp) now 3600)⟩,
       sessions ++ [⟨jwtSign
          ⟨some user.id, some user.username, none, some user.emailVerified⟩
          Alg.RS256 (Key.rsaPrivate kp) now 3600, false, user.id⟩])
  ∧ jwtVerify (jwtSign
        ⟨some user.id, some user.username, none, some user.emailVerified⟩
        Alg.RS256 (Key.rsaPrivate kp) now 3600)
      (Key.rsaPublic kp) [Alg.RS256] now =
      Except.ok ⟨some user.id, some user.username, none, some user.emailVerified⟩
  ∧ ∀ sessions2 : List Session,
      sessions2.any (fun s => s.token == jwtSign
          ⟨some user.id, some user.username, none, some user.emailVerified⟩
          Alg.RS256 (Key.rsaPrivate kp) now 3600) = true →
      login users sessions2 kp now ⟨some user.username, none, some password⟩ =
        (⟨500, Body.msg "Server error"⟩, sessions2) := by
  have hbool : ∀ s : String, s ≠ "" → s.isEmpty = false := by
    intro s hs
    rcases h : s.isEmpty
    · rfl
    · exact absurd ((String.isEmpty_iff s).mp h) hs
  have htru : (truthyStr (some user.username) && truthyStr (some password)) = true := by
    simp [truthyStr, hbool user.username hne, hbool password hpne]
  have hfind : users.find? (fun u => u.username == (some user.username).getD "")
      = some user := by
    apply find?_eq_of_unique _ _ user hmem
    · simp
    · intro b hb hpb
      exact huniq b hb (by simpa using hpb)
  refine ⟨?_, ?_, ?_⟩
  · unfold login
    rw [if_pos htru, hfind]
    dsimp only [Option.getD_some]
    rw [if_pos hpw]
    rw [if_neg (by simp [hfresh])]
  · have hexp : ¬ (now + 3600 ≤ now) := by omega
    simp [jwtVerify, jwtSign, verifiesWith, hexp]
  · intro sessions2 hdup
    unfold login
    rw [if_pos htru, hfind]
    dsimp only [Option.getD_some]
    rw [if_pos hpw]
    rw [if_pos hdup]

/-- Witness for the amended C4 at the sample identity: a fresh login on
the empty store succeeds; repeating it against the store now holding the
token answers 500 with the store unchanged. -/
theorem login_success_token_contract_witness :
    login [aliceUser] [] 0 0 ⟨some "alice", none, some "secret1"⟩ =
      (⟨200, Body.token aliceToken⟩, [⟨aliceToken, false, 1⟩])
  ∧ jwtVerify aliceToken (Key.rsaPublic 0) [Alg.RS256] 0 =
      Except.ok ⟨some 1, some "alice", none, some false⟩
  ∧ login [aliceUser] [⟨aliceToken, false, 1⟩] 0 0
        ⟨some "alice", none, some "secret1"⟩ =
      (⟨500, Body.msg "Server error"⟩, [⟨aliceToken, false, 1⟩]) :=
  ⟨(login_success_token_contract [aliceUser] [] 0 0 aliceUser "secret1"
      (by decide) (by decide) (by decide) (by decide) rfl rfl).1,
   (login_success_token_contract [aliceUser] [] 0 0 aliceUser "secret1"
      (by decide) (by decide) (by decide) (by decide) rfl rfl).2.1,
   (login_success_token_contract [aliceUser] [] 0 0 aliceUser "secret1"
      (by decide) (by decide) (by decide) (by decide) rfl rfl).2.2
     [⟨aliceToken, false, 1⟩] (by decide)⟩

/-- A token signed with an HMAC secret never passes the middleware's
RS256 verification against the public key: the algorithm pin or the
signature check fails. -/
theorem jwtVerify_hmac_key_error (t : Token) (s : String) (kp now : Nat)
    (h : t.signedWith = Key.hmacSecret s) :
    ∃ e, jwtVerify t (Key.rsaPublic kp) [Alg.RS256] now = Except.error e := by
  unfold jwtVerify
  rcases halg : t.alg with _ | _ <;> rw [h]
  · exact ⟨JwtError.invalidSignature, rfl⟩
  · exact ⟨JwtError.invalidAlgorithm, rfl⟩

/-- A token signed with an RSA private key never passes verification
against a symmetric secret (string keys admit only HMAC algorithms). -/
theorem jwtVerify_rsa_key_error (t : Token) (k : Nat) (secret : String)
    (now : Nat) (h : t.signedWith = Key.rsaPrivate k) :
    ∃ e, jwtVerify t (Key.hmacSecret secret) [Alg.HS256] now = Except.error e := by
  unfold jwtVerify
  rcases halg : t.alg with _ | _ <;> rw [h]
  · exact ⟨JwtError.invalidAlgorithm, rfl⟩
  · exact ⟨JwtError.invalidSignature, rfl⟩

/-- The middleware answers 401 "Invalid token" whenever `jwt.verify`
reports any error. -/
theorem verifyToken_reject_of_error (users : List User)
    (sessions : List Session) (asg : List UserRole) (roles : List Role)
    (kp now : Nat) (t : Token) (e : JwtError)
    (h : jwtVerify t (Key.rsaPublic kp) [Alg.RS256] now = Except.error e) :
    verifyToken users sessions asg roles kp now (some t) =
      MwResult.reject ⟨401, Body.msg "Invalid token"⟩ := by
  unfold verifyToken
  dsimp only
  rw [h]

/-- `verification` answers 400 whenever `jwt.verify` reports an error. -/
theorem verification_400_of_error (users : List User) (secret : String)
    (now : Nat) (t : Token) (e : JwtError)
    (h : jwtVerify t (Key.hmacSecret secret) [Alg.HS256] now = Except.error e) :
    verification users secret now t =
      (users, ⟨400, Body.msg "Invalid or expired verification link"⟩) := by
  unfold verification
  rw [h]

/-- `resetPassword` answers 400 whenever `jwt.verify` reports an error. -/
theorem resetPassword_400_of_error (users : List User) (secret : String)
    (now : Nat) (t : Token) (newPassword : String) (salt : Nat) (e : JwtError)
    (h : jwtVerify t (Key.hmacSecret secret) [Alg.HS256] now = Except.error e) :
    resetPassword users secret now t newPassword salt =
      (users, ⟨400, Body.msg "Invalid or expired token"⟩) := by
  unfold resetPassword
  rw [h]

/-- The action tokens of this repository verify against the shared
symmetric secret up to their TTL; this computes `jwt.verify` on them. -/
theorem jwtVerify_action_token (secret : String) (c : Claims)
    (iat now : Nat) :
    jwtVerify (jwtSign c Alg.HS256 (Key.hmacSecret secret) iat 3600)
      (Key.hmacSecret secret) [Alg.HS256] now =
      if iat + 3600 ≤ now then Except.error JwtError.tokenExpired
      else Except.ok c := by
  simp [jwtVerify, jwtSign, verifiesWith]

/-- C2: the two token families are never interchangeable.  An action
token (HMAC-signed with the symmetric secret) presented as a bearer
session token is rejected 401 by the Access Middleware; an RS256 session
token presented to the verification-consume or reset-password endpoint
fails 400 with the store untouched; a verify-email action token fails 400
at the reset-password endpoint, and a password-reset action token fails
400 at the verification endpoint, in both cases leaving the store
untouched, because each consumer pins its expected algorithm/key and
looks the user up by the claim shape of its own purpose. -/
theorem token_families_not_interchangeable (users : List User)
    (sessions : List Session) (asg : List UserRole) (roles : List Role)
    (secret : String) (kp now : Nat) (newPassword : String) (salt : Nat) :
    (∀ t : Token, t.signedWith = Key.hmacSecret secret →
       verifyToken users sessions asg roles kp now (some t) =
         MwResult.reject ⟨401, Body.msg "Invalid token"⟩)
  ∧ (∀ (t : Token) (k : Nat), t.signedWith = Key.rsaPrivate k →
       verification users secret now t =
           (users, ⟨400, Body.msg "Invalid or expired verification link"⟩)
       ∧ resetPassword users secret now t newPassword salt =
           (users, ⟨400, Body.msg "Invalid or expired token"⟩))
  ∧ (∀ (uid : Nat) (email : String) (iat : Nat),
       resetPassword users secret now
           (signupVerificationToken secret uid email iat) newPassword salt =
         (users, ⟨400, Body.msg "Invalid or expired token"⟩))
  ∧ (∀ (uid : Nat) (username : String) (iat : Nat),
       verification users secret now
           (forgotPasswordToken secret uid username iat) =
         (users, ⟨400, Body.msg "Invalid or expired verification link"⟩)) := by
  refine ⟨?_, ?_, ?_, ?_⟩
  · intro t ht
    obtain ⟨e, he⟩ := jwtVerify_hmac_key_error t secret kp now ht
    exact verifyToken_reject_of_error users sessions asg roles kp now t e he
  · intro t k ht
    obtain ⟨e, he⟩ := jwtVerify_rsa_key_error t k secret now ht
    exact ⟨verification_400_of_error users secret now t e he,
      resetPassword_400_of_error users secret now t newPassword salt e he⟩
  · intro uid email iat
    unfold resetPassword
    rw [show signupVerificationToken secret uid email iat =
      jwtSign ⟨some uid, none, some email, none⟩ Alg.HS256
        (Key.hmacSecret secret) iat 3600 from rfl]
    rw [jwtVerify_action_token]
    by_cases hexp : iat + 3600 ≤ now
    · rw [if_pos hexp]
    · rw [if_neg hexp]
      rfl
  · intro uid username iat
    unfold verification
    rw [show forgotPasswordToken secret uid username iat =
      jwtSign ⟨some uid, some username, none, none⟩ Alg.HS256
        (Key.hmacSecret secret) iat 3600 from rfl]
    rw [jwtVerify_action_token]
    by_cases hexp : iat + 3600 ≤ now
    · rw [if_pos hexp]
    · rw [if_neg hexp]
      rfl

/-- Witness for C2 at concrete tokens: an action token at the middleware,
a session token at both action endpoints, and each action token at the
other action endpoint. -/
theorem token_families_not_interchangeable_witness :
    verifyToken [] [] [] [] 0 0 (some (signupVerificationToken "s" 1 "e" 0)) =
        MwResult.reject ⟨401, Body.msg "Invalid token"⟩
  ∧ verification [] "s" 0 aliceToken =
        ([], ⟨400, Body.msg "Invalid or expired verification link"⟩)
  ∧ resetPassword [] "s" 0 aliceToken "np" 1 =
        ([], ⟨400, Body.msg "Invalid or expired token"⟩)
  ∧ resetPassword [] "s" 0 (signupVerificationToken "s" 1 "e" 0) "np" 1 =
        ([], ⟨400, Body.msg "Invalid or expired token"⟩)
  ∧ verification [] "s" 0 (forgotPasswordToken "s" 1 "a" 0) =
        ([], ⟨400, Body.msg "Invalid or expired verification link"⟩) :=
  ⟨(token_families_not_interchangeable [] [] [] [] "s" 0 0 "np" 1).1
      (signupVerificationToken "s" 1 "e" 0) rfl,
   ((token_families_not_interchangeable [] [] [] [] "s" 0 0 "np" 1).2.1
      aliceToken 0 rfl).1,
   ((token_families_not_interchangeable [] [] [] [] "s" 0 0 "np" 1).2.1
      aliceToken 0 rfl).2,
   (token_families_not_interchangeable [] [] [] [] "s" 0 0 "np" 1).2.2.1 1 "e" 0,
   (token_families_not_interchangeable [] [] [] [] "s" 0 0 "np" 1).2.2.2 1 "a" 0⟩

/-- Marking the matched identity verified commutes with the id+email
lookup, because the update touches neither the id nor the email. -/
theorem find?_map_mark (users : List User) (mid uid : Nat) (email : String) :
    (users.map (fun x => if x.id == mid then { x with emailVerified := true } else x)).find?
        (fun v => v.id == uid && v.email == email) =
      (users.find? (fun v => v.id == uid && v.email == email)).map
        (fun x => if x.id == mid then { x with emailVerified := true } else x) := by
  rw [List.find?_map]
  have hcomp : ((fun v : User => v.id == uid && v.email == email) ∘
      (fun x => if x.id == mid then { x with emailVerified := true } else x)) =
      (fun v : User => v.id == uid && v.email == email) := by
    funext x
    show ((if x.id == mid then { x with emailVerified := true } else x).id == uid &&
        (if x.id == mid then { x with emailVerified := true } else x).email == email) =
      (x.id == uid && x.email == email)
    by_cases hx : (x.id == mid) = true
    · rw [if_pos hx]
    · rw [if_neg hx]
  rw [hcomp]

/-- Setting the email-verified flag of the rows with a given id is an
idempotent store transformation. -/
theorem map_mark_idem (users : List User) (mid : Nat) :
    ((users.map (fun x => if x.id == mid then { x with emailVerified := true } else x)).map
        (fun x => if x.id == mid then { x with emailVerified := true } else x)) =
      users.map (fun x => if x.id == mid then { x with emailVerified := true } else x) := by
  rw [List.map_map]
  congr 1
  funext x
  show (fun x => if x.id == mid then { x with emailVerified := true } else x)
      (if x.id == mid then { x with emailVerified := true } else x) =
    (if x.id == mid then { x with emailVerified := true } else x)
  by_cases hx : (x.id == mid) = true
  · rw [if_pos hx]
    dsimp only
    rw [if_pos hx]
  · rw [if_neg hx]
    dsimp only
    rw [if_neg hx]

/-- Successful consumption of an email-verification action token: the
matched identity's rows are marked verified and the response is 200. -/
theorem verification_success (users : List User) (secret : String)
    (now uid iat : Nat) (email : String) (u : User)
    (hexp : ¬ (iat + 3600 ≤ now))
    (hfind : users.find? (fun v => v.id == uid && v.email == email) = some u) :
    verification users secret now (signupVerificationToken secret uid email iat) =
      (users.map (fun x => if x.id == u.id then { x with emailVerified := true } else x),
       ⟨200, Body.msg "User verified successfully"⟩) := by
  unfold verification
  rw [show signupVerificationToken secret uid email iat =
    jwtSign ⟨some uid, none, some email, none⟩ Alg.HS256
      (Key.hmacSecret secret) iat 3600 from rfl]
  rw [jwtVerify_action_token, if_neg hexp]
  dsimp only
  have hlook : findUserByIdEmail users (some uid) (some email) = Except.ok (some u) := by
    unfold findUserByIdEmail
    dsimp only
    rw [hfind]
  rw [hlook]

/-- C9: a valid, unexpired email-verification action token that has
already been consumed can be consumed again: the second consumption also
answers 200 "User verified successfully", leaves the store exactly as
after the first consumption, and the matched identity's email-verified
flag stays true — there is no single-use guarantee on action tokens. -/
theorem verification_consume_idempotent (users : List User) (secret : String)
    (now uid iat : Nat) (email : String) (u : User)
    (hnow : now < iat + 3600)
    (hfind : users.find? (fun v => v.id == uid && v.email == email) = some u) :
    ((verification users secret now (signupVerificationToken secret uid email iat)).2 =
        ⟨200, Body.msg "User verified successfully"⟩)
  ∧ (verification
        (verification users secret now (signupVerificationToken secret uid email iat)).1
        secret now (signupVerificationToken secret uid email iat) =
      ((verification users secret now (signupVerificationToken secret uid email iat)).1,
       ⟨200, Body.msg "User verified successfully"⟩))
  ∧ (∀ v ∈ (verification users secret now (signupVerificationToken secret uid email iat)).1,
       v.id = u.id → v.emailVerified = true) := by
  have hexp : ¬ (iat + 3600 ≤ now) := by omega
  have h1 := verification_success users secret now uid iat email u hexp hfind
  refine ⟨by rw [h1], ?_, ?_⟩
  · rw [h1]
    dsimp only
    have hfind2 : (users.map (fun x =>
          if x.id == u.id then { x with emailVerified := true } else x)).find?
        (fun v => v.id == uid && v.email == email) =
        some { u with emailVerified := true } := by
      rw [find?_map_mark, hfind]
      show some (if u.id == u.id then { u with emailVerified := true } else u) =
        some { u with emailVerified := true }
      rw [if_pos (by simp)]
    have h2 := verification_success
      (users.map (fun x => if x.id == u.id then { x with emailVerified := true } else x))
      secret now uid iat email { u with emailVerified := true } hexp hfind2
    rw [h2]
    dsimp only
    rw [map_mark_idem]
  · rw [h1]
    dsimp only
    intro v hv hvid
    obtain ⟨x, hx, rfl⟩ := List.mem_map.mp hv
    by_cases hxid : (x.id == u.id) = true
    · rw [if_pos hxid]
    · rw [if_neg hxid] at hvid
      exact absurd hvid (by simpa using hxid)

/-- Witness for C9: the sample identity consumes its verification token
twice. -/
theorem verification_consume_idempotent_witness :
    (verification [aliceUser] "s" 0 (signupVerificationToken "s" 1 "alice@x.com" 0)).2 =
        ⟨200, Body.msg "User verified successfully"⟩
  ∧ verification
        (verification [aliceUser] "s" 0 (signupVerificationToken "s" 1 "alice@x.com" 0)).1
        "s" 0 (signupVerificationToken "s" 1 "alice@x.com" 0) =
      ((verification [aliceUser] "s" 0 (signupVerificationToken "s" 1 "alice@x.com" 0)).1,
       ⟨200, Body.msg "User verified successfully"⟩) :=
  ⟨(verification_consume_idempotent [aliceUser] "s" 0 1 0 "alice@x.com" aliceUser
      (by decide) rfl).1,
   (verification_consume_idempotent [aliceUser] "s" 0 1 0 "alice@x.com" aliceUser
      (by decide) rfl).2.1⟩

/-- Once a row for a token exists and every row for it is revoked, any
sequence of further session-store operations — logins creating rows under
the unique-token constraint, further revocations — preserves both facts:
no operation ever clears the revoked flag, and no new row for that token
can be inserted while one exists. -/
theorem applyOps_keeps_revoked (t : Token) :
    ∀ (ops : List SessionOp) (sessions : List Session),
      (∃ s ∈ sessions, s.token = t) →
      (∀ s ∈ sessions, s.token = t → s.flag = true) →
      (∃ s ∈ applyOps sessions ops, s.token = t) ∧
        (∀ s ∈ applyOps sessions ops, s.token = t → s.flag = true) := by
  intro ops
  induction ops with
  | nil => exact fun sessions hex hall => ⟨hex, hall⟩
  | cons op ops ih =>
      intro sessions hex hall
      apply ih
      · rcases op with ⟨t2, uid⟩ | ⟨t2, uid⟩
        · unfold applyOp
          dsimp only
          by_cases hc : sessions.any (fun s => s.token == t2) = true
          · rw [if_pos hc]
            exact hex
          · rw [if_neg hc]
            obtain ⟨s, hs, hst⟩ := hex
            exact ⟨s, List.mem_append_left _ hs, hst⟩
        · obtain ⟨s, hs, hst⟩ := hex
          unfold applyOp revokeSessions
          dsimp only
          refine ⟨if s.token == t2 && s.userId == uid
              then { s with flag := true } else s,
            List.mem_map_of_mem _ hs, ?_⟩
          by_cases hc : (s.token == t2 && s.userId == uid) = true
          · rw [if_pos hc]
            exact hst
          · rw [if_neg hc]
            exact hst
      · rcases op with ⟨t2, uid⟩ | ⟨t2, uid⟩
        · unfold applyOp
          dsimp only
          by_cases hc : sessions.any (fun s => s.token == t2) = true
          · rw [if_pos hc]
            exact hall
          · rw [if_neg hc]
            intro s hs hst
            rcases List.mem_append.mp hs with h | h
            · exact hall s h hst
            · rcases List.mem_singleton.mp h with rfl
              exfalso
              obtain ⟨s0, hs0, hs0t⟩ := hex
              refine hc (List.any_eq_true.mpr ⟨s0, hs0, ?_⟩)
              have ht2 : t2 = t := hst
              rw [hs0t, ht2]
              simp
        · unfold applyOp revokeSessions
          dsimp only
          intro s hs hst
          obtain ⟨x, hx, rfl⟩ := List.mem_map.mp hs
          by_cases hc : (x.token == t2 && x.userId == uid) = true
          · rw [if_pos hc]
          · rw [if_neg hc] at hst ⊢
            exact hall x hx hst

/-- The middleware rejects with the blacklist message when the session
lookup finds nothing or finds a revoked row, provided the token itself
verified and carried the required claims. -/
theorem verifyToken_blacklisted (users : List User) (sessions : List Session)
    (asg : List UserRole) (roles : List Role) (kp now : Nat) (t : Token)
    (hsig : jwtVerify t (Key.rsaPublic kp) [Alg.RS256] now = Except.ok t.claims)
    (hid : truthyNat t.claims.id = true)
    (husr : truthyStr t.claims.username = true)
    (hblack : sessions.find? (fun s => s.token == t) = none ∨
      ∃ r, sessions.find? (fun s => s.token == t) = some r ∧ r.flag = true) :
    verifyToken users sessions asg roles kp now (some t) =
      MwResult.reject ⟨401, Body.msg "Token is blacklisted"⟩ := by
  unfold verifyToken
  dsimp only
  rw [hsig]
  dsimp only
  rw [if_neg (by rw [hid, husr]; simp)]
  rcases hblack with hnone | ⟨r, hr, hrflag⟩
  · rw [hnone]
  · rw [hr]
    dsimp only
    rw [if_pos hrflag]

/-- C1: a session token whose store rows are all revoked — as logout
leaves them — or which has no store row at all is rejected by the Access
Middleware with 401 "Token is blacklisted" and never reaches the
protected handler, even though its signature and expiry are valid and its
claims complete; and once the owner logs the token out, every subsequent
request presenting it, across any further session-store activity and at
any time at which the signature still verifies, is rejected the same
way — revocation is permanent. -/
theorem revoked_or_unknown_token_always_rejected (users : List User)
    (sessions : List Session) (asg : List UserRole) (roles : List Role)
    (kp uid now : Nat) (t : Token)
    (hsig : jwtVerify t (Key.rsaPublic kp) [Alg.RS256] now = Except.ok t.claims)
    (hid : truthyNat t.claims.id = true)
    (husr : truthyStr t.claims.username = true)
    (huniq : ∀ s1 ∈ sessions, ∀ s2 ∈ sessions, s1.token = s2.token → s1 = s2) :
    (sessions.find? (fun s => s.token == t) = none →
       verifyToken users sessions asg roles kp now (some t) =
         MwResult.reject ⟨401, Body.msg "Token is blacklisted"⟩)
  ∧ ((∃ s ∈ sessions, s.token = t ∧ s.userId = uid) →
       ∀ (ops : List SessionOp) (now2 : Nat),
         jwtVerify t (Key.rsaPublic kp) [Alg.RS256] now2 = Except.ok t.claims →
         verifyToken users (applyOps (logout sessions uid t).1 ops) asg roles
             kp now2 (some t) =
           MwResult.reject ⟨401, Body.msg "Token is blacklisted"⟩) := by
  constructor
  · intro hnone
    exact verifyToken_blacklisted users sessions asg roles kp now t hsig hid husr
      (Or.inl hnone)
  · rintro ⟨s0, hs0, hs0t, hs0uid⟩ ops now2 hsig2
    have hex1 : ∃ s ∈ revokeSessions sessions t uid, s.token = t := by
      refine ⟨if s0.token == t && s0.userId == uid
          then { s0 with flag := true } else s0,
        List.mem_map_of_mem _ hs0, ?_⟩
      by_cases hc : (s0.token == t && s0.userId == uid) = true
      · rw [if_pos hc]
        exact hs0t
      · rw [if_neg hc]
        exact hs0t
    have hall1 : ∀ s ∈ revokeSessions sessions t uid, s.token = t → s.flag = true := by
      intro s hs hst
      obtain ⟨x, hx, rfl⟩ := List.mem_map.mp hs
      by_cases hc : (x.token == t && x.userId == uid) = true
      · rw [if_pos hc]
      · rw [if_neg hc] at hst ⊢
        have hxs0 : x = s0 := huniq x hx s0 hs0 (by rw [hst, hs0t])
        exfalso
        refine hc ?_
        rw [hxs0, hs0t, hs0uid]
        simp
    obtain ⟨hex2, hall2⟩ := applyOps_keeps_revoked t ops
      (revokeSessions sessions t uid) hex1 hall1
    apply verifyToken_blacklisted users _ asg roles kp now2 t hsig2 hid husr
    right
    obtain ⟨r0, hr0, hr0t⟩ := hex2
    have hsome : ((applyOps (revokeSessions sessions t uid) ops).find?
        (fun s => s.token == t)).isSome := by
      rw [List.find?_isSome]
      exact ⟨r0, hr0, by rw [hr0t]; simp⟩
    obtain ⟨r, hr⟩ := Option.isSome_iff_exists.mp hsome
    refine ⟨r, hr, ?_⟩
    have hrt : r.token = t := by
      have := List.find?_some hr
      simpa using this
    exact hall2 r (List.mem_of_find?_eq_some hr) hrt

/-- Witness for C1: the sample session token, once logged out, is
rejected as blacklisted; an unknown token is rejected as blacklisted. -/
theorem revoked_or_unknown_token_always_rejected_witness :
    verifyToken [aliceUser]
        (applyOps (logout [⟨aliceToken, false, 1⟩] 1 aliceToken).1 []) [] [] 0 0
        (some aliceToken) =
      MwResult.reject ⟨401, Body.msg "Token is blacklisted"⟩
  ∧ verifyToken [aliceUser] [] [] [] 0 0 (some aliceToken) =
      MwResult.reject ⟨401, Body.msg "Token is blacklisted"⟩ :=
  ⟨(revoked_or_unknown_token_always_rejected [aliceUser] [⟨aliceToken, false, 1⟩]
      [] [] 0 1 0 aliceToken rfl rfl (by decide) (by decide)).2
      ⟨⟨aliceToken, false, 1⟩, by simp, rfl, rfl⟩ [] 0 rfl,
   (revoked_or_unknown_token_always_rejected [aliceUser] [] [] [] 0 1 0
      aliceToken rfl rfl (by decide) (by decide)).1 rfl⟩
